import Mathlib

/-!
Verification development for the LAFVIN PICO development kit firmware:
a shallow embedding of the GT911 touch driver (`gt911.c`), the ST7796
display driver (`st7796.c`), the LVGL display bridge (`lv_port_disp.c`)
and the joystick/button handling in `main.c`, together with theorems
about the specified behaviours.
-/

namespace Gt911

/-- Register addresses from `gt911.h`. -/
def GT911_REG_STATUS : Nat := 0x814E

def GT911_REG_PT1_X_L : Nat := 0x8150

def GT911_REG_PT1_X_H : Nat := 0x8151

def GT911_REG_PT1_Y_L : Nat := 0x8152

def GT911_REG_PT1_Y_H : Nat := 0x8153

/-- Status-register bit masks from `gt911.h`. -/
def GT911_STATUS_BUF_READY : Nat := 0x80

def GT911_STATUS_PT_MASK : Nat := 0x0F

/-- The I2C bus as seen by the driver: each register read either fails
(`none`) or yields a byte value (the driver stores it into a `uint8_t`,
modelled by reducing mod 256 at the point of storage); `writeOk` records
whether a write transaction on the bus succeeds.  Faithful to the calls
`gt911_i2c_read_reg` / `i2c_write_blocking` in `gt911.c`. -/
structure Bus where
  readReg : Nat → Option Nat
  writeOk : Bool

/-- The driver's persistent state: `gt911_dev.initialized` plus the two
function-local `static` variables `last_x`, `last_y` of
`gt911_read_touch`. -/
structure DrvState where
  initialized : Bool
  last_x : Nat
  last_y : Nat
deriving DecidableEq, Repr

/-- Observable bus events of one `gt911_read_touch` call: a register read
(with its success flag) or the status-clear write issued by
`gt911_clear_status` (recording whether the ignored bus write succeeded). -/
inductive Event where
  | regRead (reg : Nat) (ok : Bool)
  | clearStatus (ok : Bool)
deriving DecidableEq, Repr

/-- Model of `gt911_clear_status` from `gt911.c`: a single 3-byte
`i2c_write_blocking` of `{0x81, 0x4E, 0x00}` whose result is discarded
(the function returns `void`).  Its observable effect is one
status-clear write event. -/
def gt911_clear_status (bus : Bus) : List Event :=
  [Event.clearStatus bus.writeOk]

/-- Shallow embedding of `gt911_read_touch` (`gt911.c`, lines 114-180).
Returns the out-parameters on success (`none` models `return false`),
the updated driver state, and the list of bus events in order. -/
def gt911_read_touch (bus : Bus) (s : DrvState) :
    Option (Nat × Nat × Bool) × DrvState × List Event :=
  if s.initialized = false then (none, s, [])
  else
    match bus.readReg GT911_REG_STATUS with
    | none => (none, s, [Event.regRead GT911_REG_STATUS false])
    | some b =>
      let status_reg := b % 256
      let touch_count := status_reg &&& GT911_STATUS_PT_MASK
      let tr1 : List Event :=
        if status_reg &&& GT911_STATUS_BUF_READY ≠ 0 ∨ touch_count < 6 then
          [Event.regRead GT911_REG_STATUS true] ++ gt911_clear_status bus
        else
          [Event.regRead GT911_REG_STATUS true]
      if touch_count = 1 then
        match bus.readReg GT911_REG_PT1_X_L with
        | none => (none, s, tr1 ++ [Event.regRead GT911_REG_PT1_X_L false])
        | some xl =>
          let s1 := { s with last_x := xl % 256 }
          match bus.readReg GT911_REG_PT1_X_H with
          | none => (none, s1, tr1 ++ [Event.regRead GT911_REG_PT1_X_L true,
              Event.regRead GT911_REG_PT1_X_H false])
          | some xh =>
            let s2 := { s1 with last_x := s1.last_x ||| ((xh % 256) <<< 8) }
            match bus.readReg GT911_REG_PT1_Y_L with
            | none => (none, s2, tr1 ++ [Event.regRead GT911_REG_PT1_X_L true,
                Event.regRead GT911_REG_PT1_X_H true,
                Event.regRead GT911_REG_PT1_Y_L false])
            | some yl =>
              let s3 := { s2 with last_y := yl % 256 }
              match bus.readReg GT911_REG_PT1_Y_H with
              | none => (none, s3, tr1 ++ [Event.regRead GT911_REG_PT1_X_L true,
                  Event.regRead GT911_REG_PT1_X_H true,
                  Event.regRead GT911_REG_PT1_Y_L true,
                  Event.regRead GT911_REG_PT1_Y_H false])
              | some yh =>
                let s4 := { s3 with last_y := s3.last_y ||| ((yh % 256) <<< 8) }
                (some (s4.last_x, s4.last_y, true), s4,
                  tr1 ++ [Event.regRead GT911_REG_PT1_X_L true,
                    Event.regRead GT911_REG_PT1_X_H true,
                    Event.regRead GT911_REG_PT1_Y_L true,
                    Event.regRead GT911_REG_PT1_Y_H true])
      else
        (some (s.last_x, s.last_y, false), s, tr1)

/-- Whether an event is the status-clear write. -/
def isClear : Event → Bool
  | Event.clearStatus _ => true
  | _ => false

/-- Whether an event is a read of one of the point-1 coordinate
registers. -/
def isCoordRead : Event → Bool
  | Event.regRead r _ =>
      r == GT911_REG_PT1_X_L || r == GT911_REG_PT1_X_H ||
      r == GT911_REG_PT1_Y_L || r == GT911_REG_PT1_Y_H
  | _ => false

/-- Number of status-clear writes in a trace. -/
def clearCount (tr : List Event) : Nat := tr.countP isClear

/-- Holds (as `true`) when no status-clear write occurs at or after the first
coordinate-register read, i.e. every clear write precedes every
coordinate read in the trace. -/
def noClearAfterCoord (tr : List Event) : Bool :=
  (tr.dropWhile (fun e => !isCoordRead e)).all (fun e => !isClear e)

/-- A concrete bus: status byte `0x81`, point-1 coordinate bytes
`(0x64, 0x00, 0xC8, 0x00)`, every read succeeding. -/
def busTouch : Bus where
  readReg := fun r =>
    if r = GT911_REG_STATUS then some 0x81
    else if r = GT911_REG_PT1_X_L then some 0x64
    else if r = GT911_REG_PT1_X_H then some 0x00
    else if r = GT911_REG_PT1_Y_L then some 0xC8
    else if r = GT911_REG_PT1_Y_H then some 0x00
    else none
  writeOk := true

/-- A concrete bus whose status register reads `0x00` (no touch). -/
def busIdle : Bus where
  readReg := fun r => if r = GT911_REG_STATUS then some 0x00 else none
  writeOk := true

/-- An initialized driver state with no touch yet observed. -/
def initState : DrvState := ⟨true, 0, 0⟩

end Gt911

namespace Joystick

/-- ADC constants from `main.c`. -/
def ADC_MAX_VALUE : Int := 4095

def ADC_CENTER : Int := 2048

def ADC_DEADZONE : Int := 150

/-- Shallow embedding of `map_adc_with_deadzone` (`main.c`, lines 342-370).
C `int` division truncates toward zero, modelled by `Int.tdiv`; `abs` is
the C library `abs` on `int`. -/
def map_adc_with_deadzone (adc_raw : Nat) (max_pos : Int) (invert : Bool) : Int :=
  let offset : Int := (adc_raw : Int) - ADC_CENTER
  if |offset| < ADC_DEADZONE then
    max_pos.tdiv 2
  else
    let range : Int := ADC_CENTER - ADC_DEADZONE
    let scaled : Int :=
      if offset > 0 then ((offset - ADC_DEADZONE) * (max_pos.tdiv 2)).tdiv range
      else ((offset + ADC_DEADZONE) * (max_pos.tdiv 2)).tdiv range
    let mapped : Int := max_pos.tdiv 2 + scaled
    let mapped1 : Int := if mapped < 0 then 0 else mapped
    let mapped2 : Int := if mapped1 > max_pos then max_pos else mapped1
    if invert then max_pos - mapped2 else mapped2

end Joystick

namespace Buttons

/-- GPIO pin numbers from `main.c`. -/
def GPIO_BUTTON_1 : Nat := 15

def GPIO_BUTTON_2 : Nat := 14

/-- Pico SDK rising-edge interrupt mask (`GPIO_IRQ_EDGE_RISE = 1 << 3`). -/
def GPIO_IRQ_EDGE_RISE : Nat := 8

def BTN_DEBOUNCE_MS : Nat := 50

/-- State touched by `on_button_interrupt`: the per-button `static`
debounce timestamps, the two LVGL LED indicator states, and the two
physical LED GPIO output latches. -/
structure MainState where
  btn1_last_time : Nat
  btn2_last_time : Nat
  led1_on : Bool
  led2_on : Bool
  gpio_led1 : Bool
  gpio_led2 : Bool
deriving DecidableEq, Repr

/-- Wrapping `uint32_t` subtraction, as computed by `now - btnN_last_time`
in C. -/
def usub32 (a b : Nat) : Nat := (a + 2 ^ 32 - b % 2 ^ 32) % 2 ^ 32

/-- Shallow embedding of `on_button_interrupt` (`main.c`, lines 490-513):
only a rising edge is handled; per-button debounce requires the wrapped
elapsed time to exceed `BTN_DEBOUNCE_MS`; on acceptance it stores the new
timestamp and toggles the LVGL indicator and the LED GPIO. -/
def on_button_interrupt (gpio_pin events now : Nat) (s : MainState) : MainState :=
  if events &&& GPIO_IRQ_EDGE_RISE = 0 then s
  else if gpio_pin = GPIO_BUTTON_1 then
    if usub32 now s.btn1_last_time > BTN_DEBOUNCE_MS then
      { s with btn1_last_time := now, led1_on := !s.led1_on, gpio_led1 := !s.gpio_led1 }
    else s
  else if gpio_pin = GPIO_BUTTON_2 then
    if usub32 now s.btn2_last_time > BTN_DEBOUNCE_MS then
      { s with btn2_last_time := now, led2_on := !s.led2_on, gpio_led2 := !s.gpio_led2 }
    else s
  else s

/-- A concrete state whose button-1 debounce timestamp is 100 ms. -/
def btnState0 : MainState := ⟨100, 0, false, false, false, false⟩

end Buttons

namespace St7796

/-- Observable actions on the display bus: the chip-select and
data/command GPIO edges and one blocking SPI write of a byte sequence. -/
inductive BusAction where
  | csLow
  | csHigh
  | dcCmd
  | dcData
  | spiWrite (bytes : List Nat)
deriving DecidableEq, Repr

/-- Command opcodes from `st7796.h`. -/
def ST7796_CMD_CASET : Nat := 0x2A

def ST7796_CMD_RASET : Nat := 0x2B

def ST7796_CMD_RAMWR : Nat := 0x2C

/-- Model of `st7796_write_cmd`: chip-select low, command mode, one-byte
SPI write, chip-select high. -/
def st7796_write_cmd (cmd : Nat) : List BusAction :=
  [BusAction.csLow, BusAction.dcCmd, BusAction.spiWrite [cmd % 256], BusAction.csHigh]

/-- Model of `st7796_write_data`: no-op on an empty payload, otherwise
chip-select low, data mode, one SPI burst, chip-select high. -/
def st7796_write_data (data : List Nat) : List BusAction :=
  if data.length = 0 then []
  else [BusAction.csLow, BusAction.dcData, BusAction.spiWrite data, BusAction.csHigh]

/-- Model of `st7796_set_window` (`st7796.c`, lines 199-221): column range,
row range (coordinate bytes high-byte-first), then the memory-write
command. -/
def st7796_set_window (x1 y1 x2 y2 : Nat) : List BusAction :=
  st7796_write_cmd ST7796_CMD_CASET ++
  st7796_write_data [x1 / 256 % 256, x1 % 256, x2 / 256 % 256, x2 % 256] ++
  st7796_write_cmd ST7796_CMD_RASET ++
  st7796_write_data [y1 / 256 % 256, y1 % 256, y2 / 256 % 256, y2 % 256] ++
  st7796_write_cmd ST7796_CMD_RAMWR

/-- Byte serialization of one RGB565 pixel as the RP2040 (little-endian)
lays a `uint16_t` out in memory: low byte first. -/
def pixelToBytes (p : Nat) : List Nat := [p % 256, p % 65536 / 256]

/-- Shallow embedding of `st7796_write_color` (`st7796.c`, lines 229-243):
a null buffer or a zero pixel count is a no-op; otherwise one burst of
`len * 2` bytes is sent with chip-select asserted and the data/command
line in data mode. -/
def st7796_write_color (color : Option (List Nat)) (len : Nat) : List BusAction :=
  match color with
  | none => []
  | some pixels =>
    if len = 0 then []
    else [BusAction.csLow, BusAction.dcData,
      BusAction.spiWrite ((pixels.take len).flatMap pixelToBytes), BusAction.csHigh]

end St7796

namespace LvPortDisp

/-- Observable events of one `disp_flush` call: a display-bus action or
the `lv_disp_flush_ready` completion signal to LVGL. -/
inductive FlushEvent where
  | bus (a : St7796.BusAction)
  | flushReady
deriving DecidableEq, Repr

/-- Shallow embedding of `disp_flush` (`lv_port_disp.c`, lines 151-173):
with refresh disabled it only signals completion; otherwise it sets the
window to the area, writes `width * height` pixels from the buffer, and
then signals completion. -/
def disp_flush (disp_flush_enabled : Bool) (x1 y1 x2 y2 : Nat)
    (color : Option (List Nat)) : List FlushEvent :=
  if disp_flush_enabled = false then [FlushEvent.flushReady]
  else
    ((St7796.st7796_set_window x1 y1 x2 y2).map FlushEvent.bus) ++
    ((St7796.st7796_write_color color ((x2 - x1 + 1) * (y2 - y1 + 1))).map FlushEvent.bus) ++
    [FlushEvent.flushReady]

/-- Whether an event is the completion signal. -/
def isFlushReady : FlushEvent → Bool
  | FlushEvent.flushReady => true
  | _ => false

/-- Number of completion signals in a flush trace. -/
def flushReadyCount (tr : List FlushEvent) : Nat := tr.countP isFlushReady

end LvPortDisp

/-! ## Theorems about the GT911 touch driver -/

namespace Gt911

/-- Helper: a successful `gt911_read_touch` call that reports `pressed=true`
leaves the driver state holding exactly the reported coordinates (the
call stores into the `static` `last_x`/`last_y` before returning them). -/
theorem press_state (bus : Bus) (s : DrvState) (x y : Nat)
    (h : (gt911_read_touch bus s).1 = some (x, y, true)) :
    (gt911_read_touch bus s).2.1 = ⟨true, x, y⟩ := by
  rcases hE : gt911_read_touch bus s with ⟨res, s', tr⟩
  rw [hE] at h
  simp only [gt911_read_touch] at hE
  split at hE <;> (try (repeat1' (split at hE))) <;>
    first
      | simp_all
      | skip
  all_goals
    (obtain ⟨⟨hx, hy⟩, hs, -⟩ := hE
     rw [← hs, hx, hy])

end Gt911

/-- C1: whenever the status byte has bit7 (buffer-ready) set OR a low-4-bit
point count strictly below 6, `gt911_read_touch` issues exactly one
status-clear write, and that write occurs before any point-1 coordinate
register is read; when bit7 is clear AND the count is 6 or more, no
status-clear write is issued. -/
theorem gt911_status_clear_handshake (bus : Gt911.Bus) (s : Gt911.DrvState) (st : Nat)
    (hi : s.initialized = true)
    (hst : bus.readReg Gt911.GT911_REG_STATUS = some st) :
    Gt911.clearCount (Gt911.gt911_read_touch bus s).2.2 =
      (if st % 256 &&& Gt911.GT911_STATUS_BUF_READY ≠ 0 ∨
          st % 256 &&& Gt911.GT911_STATUS_PT_MASK < 6 then 1 else 0)
    ∧ Gt911.noClearAfterCoord (Gt911.gt911_read_touch bus s).2.2 = true := by
  simp only [Gt911.gt911_read_touch, hi, hst, Bool.true_eq_false, if_false]
  by_cases hcond : st % 256 &&& Gt911.GT911_STATUS_BUF_READY ≠ 0 ∨
      st % 256 &&& Gt911.GT911_STATUS_PT_MASK < 6 <;>
    simp only [hcond, if_true, if_false, ite_true, ite_false, not_true, not_false_iff] <;>
    (repeat' split) <;>
    exact ⟨by simp [Gt911.clearCount, Gt911.isClear, Gt911.gt911_clear_status,
        List.countP_cons, List.countP_nil],
      by simp [Gt911.noClearAfterCoord, Gt911.isCoordRead, Gt911.isClear,
        Gt911.gt911_clear_status, Gt911.GT911_REG_STATUS, Gt911.GT911_REG_PT1_X_L,
        Gt911.GT911_REG_PT1_X_H, Gt911.GT911_REG_PT1_Y_L, Gt911.GT911_REG_PT1_Y_H]⟩

/-- Witness for C1 at a concrete input: the press bus (status `0x81`). -/
theorem gt911_status_clear_handshake_witness :
    Gt911.clearCount (Gt911.gt911_read_touch Gt911.busTouch Gt911.initState).2.2 =
      (if 0x81 % 256 &&& Gt911.GT911_STATUS_BUF_READY ≠ 0 ∨
          0x81 % 256 &&& Gt911.GT911_STATUS_PT_MASK < 6 then 1 else 0)
    ∧ Gt911.noClearAfterCoord
        (Gt911.gt911_read_touch Gt911.busTouch Gt911.initState).2.2 = true :=
  gt911_status_clear_handshake Gt911.busTouch Gt911.initState 0x81 (by decide) (by decide)

/-- C2: once a prior single-touch read reported `(px, py, pressed=true)`, a
subsequent read whose status byte carries a point count other than 1
returns the persisted coordinates `(px, py)` with `pressed=false`, leaves
the driver state unchanged, and a repeated such read returns the same
sample again (idempotence). -/
theorem gt911_release_reports_last_press (bus0 bus : Gt911.Bus) (s0 : Gt911.DrvState)
    (px py st : Nat)
    (hprev : (Gt911.gt911_read_touch bus0 s0).1 = some (px, py, true))
    (hst : bus.readReg Gt911.GT911_REG_STATUS = some st)
    (hc : st % 256 &&& Gt911.GT911_STATUS_PT_MASK ≠ 1) :
    (Gt911.gt911_read_touch bus (Gt911.gt911_read_touch bus0 s0).2.1).1 =
      some (px, py, false)
    ∧ (Gt911.gt911_read_touch bus (Gt911.gt911_read_touch bus0 s0).2.1).2.1 =
        (Gt911.gt911_read_touch bus0 s0).2.1
    ∧ (Gt911.gt911_read_touch bus
        (Gt911.gt911_read_touch bus (Gt911.gt911_read_touch bus0 s0).2.1).2.1).1 =
      some (px, py, false) := by
  rw [Gt911.press_state bus0 s0 px py hprev]
  have hone : (Gt911.gt911_read_touch bus ⟨true, px, py⟩).1 = some (px, py, false)
      ∧ (Gt911.gt911_read_touch bus ⟨true, px, py⟩).2.1 = ⟨true, px, py⟩ := by
    simp only [Gt911.gt911_read_touch, hst]
    simp [hc]
  refine ⟨hone.1, hone.2, ?_⟩
  rw [hone.2]
  exact hone.1

/-- Witness for C2: press at `(100,200)` on `busTouch`, then an idle
status byte `0x00` on `busIdle`. -/
theorem gt911_release_reports_last_press_witness :
    (Gt911.gt911_read_touch Gt911.busIdle
        (Gt911.gt911_read_touch Gt911.busTouch Gt911.initState).2.1).1 =
      some (100, 200, false)
    ∧ (Gt911.gt911_read_touch Gt911.busIdle
          (Gt911.gt911_read_touch Gt911.busTouch Gt911.initState).2.1).2.1 =
        (Gt911.gt911_read_touch Gt911.busTouch Gt911.initState).2.1
    ∧ (Gt911.gt911_read_touch Gt911.busIdle
        (Gt911.gt911_read_touch Gt911.busIdle
          (Gt911.gt911_read_touch Gt911.busTouch Gt911.initState).2.1).2.1).1 =
      some (100, 200, false) :=
  gt911_release_reports_last_press Gt911.busTouch Gt911.busIdle Gt911.initState
    100 200 0 (by decide) (by decide) (by decide)

/-- C3: reading status `0x81` with point-1 registers `(0x64,0x00,0xC8,0x00)`
performs the status-clear write once and returns `x=100`, `y=200`,
`pressed=true` (little-endian reconstruction of both coordinates). -/
theorem gt911_scenario_press_100_200 :
    (Gt911.gt911_read_touch Gt911.busTouch Gt911.initState).1 = some (100, 200, true)
    ∧ Gt911.clearCount (Gt911.gt911_read_touch Gt911.busTouch Gt911.initState).2.2 = 1
    ∧ Gt911.noClearAfterCoord
        (Gt911.gt911_read_touch Gt911.busTouch Gt911.initState).2.2 = true
    ∧ (Gt911.gt911_read_touch Gt911.busTouch Gt911.initState).2.1 = ⟨true, 100, 200⟩ := by
  decide

/-- C4 counterexample: after a press at `(100,200)`, a call reading status
byte `0x00` does return `(100, 200, pressed=false)`, but — contrary to the
claim — it does issue a status-clear write (the point count 0 is below 6,
so the OR-condition triggers the clear). -/
theorem gt911_idle_clear_write_counterexample :
    (Gt911.gt911_read_touch Gt911.busIdle ⟨true, 100, 200⟩).1 = some (100, 200, false)
    ∧ Gt911.clearCount (Gt911.gt911_read_touch Gt911.busIdle ⟨true, 100, 200⟩).2.2 = 1
    ∧ ¬ Gt911.clearCount (Gt911.gt911_read_touch Gt911.busIdle ⟨true, 100, 200⟩).2.2 = 0 := by
  decide

/-- C4 (amended): after a successful read returned `(100,200,true)`, a
subsequent call reading status byte `0x00` returns `(100, 200, false)` and
performs exactly one status-clear write during that call. -/
theorem gt911_idle_returns_last_with_clear (bus : Gt911.Bus) (s : Gt911.DrvState)
    (hi : s.initialized = true)
    (hst : bus.readReg Gt911.GT911_REG_STATUS = some 0) :
    (Gt911.gt911_read_touch bus s).1 = some (s.last_x, s.last_y, false)
    ∧ Gt911.clearCount (Gt911.gt911_read_touch bus s).2.2 = 1 := by
  simp only [Gt911.gt911_read_touch, hi, hst, Bool.true_eq_false, if_false]
  simp [Gt911.clearCount, Gt911.isClear, Gt911.gt911_clear_status,
    Gt911.GT911_STATUS_PT_MASK, Gt911.GT911_STATUS_BUF_READY]

/-- Witness for the amended C4, with the post-press state `(100,200)`. -/
theorem gt911_idle_returns_last_with_clear_witness :
    (Gt911.gt911_read_touch Gt911.busIdle ⟨true, 100, 200⟩).1 = some (100, 200, false)
    ∧ Gt911.clearCount (Gt911.gt911_read_touch Gt911.busIdle ⟨true, 100, 200⟩).2.2 = 1 :=
  gt911_idle_returns_last_with_clear Gt911.busIdle ⟨true, 100, 200⟩ (by decide) (by decide)

/-- C10: the result and the updated state of `gt911_read_touch` do not
depend on whether the status-clear acknowledgment write succeeds on the
bus (its result is discarded), and when every register read succeeds the
call succeeds even though the acknowledgment write failed. -/
theorem gt911_result_independent_of_ack (bus : Gt911.Bus) (s : Gt911.DrvState) (w : Bool)
    (st xl xh yl yh : Nat)
    (hi : s.initialized = true)
    (h1 : bus.readReg Gt911.GT911_REG_STATUS = some st)
    (h2 : bus.readReg Gt911.GT911_REG_PT1_X_L = some xl)
    (h3 : bus.readReg Gt911.GT911_REG_PT1_X_H = some xh)
    (h4 : bus.readReg Gt911.GT911_REG_PT1_Y_L = some yl)
    (h5 : bus.readReg Gt911.GT911_REG_PT1_Y_H = some yh) :
    ((Gt911.gt911_read_touch { bus with writeOk := w } s).1 =
        (Gt911.gt911_read_touch bus s).1
      ∧ (Gt911.gt911_read_touch { bus with writeOk := w } s).2.1 =
        (Gt911.gt911_read_touch bus s).2.1)
    ∧ ((Gt911.gt911_read_touch { bus with writeOk := false } s).1).isSome = true := by
  constructor
  · simp only [Gt911.gt911_read_touch]
    cases hb : bus.readReg Gt911.GT911_REG_STATUS <;> simp only [hb] <;>
      (try (cases hxl : bus.readReg Gt911.GT911_REG_PT1_X_L <;> simp only [hxl])) <;>
      (try (cases hxh : bus.readReg Gt911.GT911_REG_PT1_X_H <;> simp only [hxh])) <;>
      (try (cases hyl : bus.readReg Gt911.GT911_REG_PT1_Y_L <;> simp only [hyl])) <;>
      (try (cases hyh : bus.readReg Gt911.GT911_REG_PT1_Y_H <;> simp only [hyh])) <;>
      (repeat' split) <;> simp
  · simp only [Gt911.gt911_read_touch, hi, h1, h2, h3, h4, h5, Bool.true_eq_false, if_false]
    split <;> simp

/-- Witness for C10 on the concrete press bus with the write failing. -/
theorem gt911_result_independent_of_ack_witness :
    ((Gt911.gt911_read_touch { Gt911.busTouch with writeOk := false } Gt911.initState).1 =
        (Gt911.gt911_read_touch Gt911.busTouch Gt911.initState).1
      ∧ (Gt911.gt911_read_touch { Gt911.busTouch with writeOk := false } Gt911.initState).2.1 =
        (Gt911.gt911_read_touch Gt911.busTouch Gt911.initState).2.1)
    ∧ ((Gt911.gt911_read_touch { Gt911.busTouch with writeOk := false }
        Gt911.initState).1).isSome = true :=
  gt911_result_independent_of_ack Gt911.busTouch Gt911.initState false
    0x81 0x64 0x00 0xC8 0x00 (by decide) (by decide) (by decide) (by decide)
    (by decide) (by decide)

/-! ## Theorems about the joystick dead-zone mapping -/

namespace Joystick

/-- Helper: truncating integer division is monotone in the numerator for a
positive denominator. -/
theorem tdiv_le_tdiv_right {a b d : Int} (hd : 0 < d) (h : a ≤ b) :
    a.tdiv d ≤ b.tdiv d := by
  rcases le_or_lt 0 a with ha | ha
  · rw [Int.tdiv_eq_ediv ha hd.le, Int.tdiv_eq_ediv (ha.trans h) hd.le]
    exact Int.ediv_le_ediv hd h
  · rcases le_or_lt 0 b with hb | hb
    · have hna : a.tdiv d = -((-a).tdiv d) := by
        rw [← Int.neg_tdiv, neg_neg]
      have h1 : 0 ≤ (-a).tdiv d := Int.tdiv_nonneg (by omega) hd.le
      have h2 : 0 ≤ b.tdiv d := Int.tdiv_nonneg hb hd.le
      omega
    · have key : (-b).tdiv d ≤ (-a).tdiv d := by
        rw [Int.tdiv_eq_ediv (by omega) hd.le, Int.tdiv_eq_ediv (by omega) hd.le]
        exact Int.ediv_le_ediv hd (by omega)
      have hna : a.tdiv d = -((-a).tdiv d) := by rw [← Int.neg_tdiv, neg_neg]
      have hnb : b.tdiv d = -((-b).tdiv d) := by rw [← Int.neg_tdiv, neg_neg]
      omega

/-- Helper: inside the dead band the mapping returns the exact center. -/
theorem map_center (r : Nat) (mp : Int) (invert : Bool)
    (h : |(r : Int) - 2048| < 150) :
    map_adc_with_deadzone r mp invert = mp.tdiv 2 := by
  simp only [map_adc_with_deadzone, ADC_CENTER, ADC_DEADZONE]
  rw [if_pos h]

/-- Helper: monotonicity of the non-inverted mapping outside the closed
dead band. -/
theorem map_mono_false (mp : Int) (hmp : 0 ≤ mp) (r1 r2 : Nat)
    (h12 : r1 ≤ r2) (hmax : r2 ≤ 4095)
    (ho1 : r1 ≤ 1897 ∨ 2199 ≤ r1) (ho2 : r2 ≤ 1897 ∨ 2199 ≤ r2) :
    map_adc_with_deadzone r1 mp false ≤ map_adc_with_deadzone r2 mp false := by
  have hmp2 : 0 ≤ mp.tdiv 2 := Int.tdiv_nonneg hmp (by norm_num)
  have hrange : (0 : Int) < 2048 - 150 := by norm_num
  simp only [map_adc_with_deadzone, ADC_CENTER, ADC_DEADZONE, Bool.false_eq_true,
    if_false]
  rw [if_neg (show ¬ |(r1 : Int) - 2048| < 150 by rw [abs_lt]; omega),
    if_neg (show ¬ |(r2 : Int) - 2048| < 150 by rw [abs_lt]; omega)]
  rcases ho1 with hl1 | hh1
  · rcases ho2 with hl2 | hh2
    · have hs : (((r1 : Int) - 2048 + 150) * mp.tdiv 2).tdiv (2048 - 150) ≤
          (((r2 : Int) - 2048 + 150) * mp.tdiv 2).tdiv (2048 - 150) :=
        tdiv_le_tdiv_right hrange
          (mul_le_mul_of_nonneg_right (by omega) hmp2)
      split_ifs <;> omega
    · have hs1 : (((r1 : Int) - 2048 + 150) * mp.tdiv 2).tdiv (2048 - 150) ≤ 0 := by
        have hn : ((r1 : Int) - 2048 + 150) * mp.tdiv 2 ≤ 0 := by
          have h0 := mul_le_mul_of_nonneg_right
            (show (r1 : Int) - 2048 + 150 ≤ 0 by omega) hmp2
          simpa using h0
        have h1 := tdiv_le_tdiv_right hrange hn
        simpa using h1
      have hs2 : 0 ≤ (((r2 : Int) - 2048 - 150) * mp.tdiv 2).tdiv (2048 - 150) :=
        Int.tdiv_nonneg (mul_nonneg (by omega) hmp2) hrange.le
      split_ifs <;> omega
  · have hh2 : 2199 ≤ r2 := by omega
    have hs : (((r1 : Int) - 2048 - 150) * mp.tdiv 2).tdiv (2048 - 150) ≤
        (((r2 : Int) - 2048 - 150) * mp.tdiv 2).tdiv (2048 - 150) :=
      tdiv_le_tdiv_right hrange
        (mul_le_mul_of_nonneg_right (by omega) hmp2)
    split_ifs <;> omega

/-- Helper: outside the dead band the inverted mapping is exactly
`max_pos` minus the non-inverted one. -/
theorem map_invert_eq (r : Nat) (mp : Int)
    (ho : r ≤ 1897 ∨ 2199 ≤ r) :
    map_adc_with_deadzone r mp true = mp - map_adc_with_deadzone r mp false := by
  simp only [map_adc_with_deadzone, ADC_CENTER, ADC_DEADZONE]
  rw [if_neg (show ¬ |(r : Int) - 2048| < 150 by rw [abs_lt]; omega),
    if_neg (show ¬ |(r : Int) - 2048| < 150 by rw [abs_lt]; omega)]
  simp

end Joystick

/-- C5: for raw ADC values in `[0, 4095]` outside the closed band
`[2048-150, 2048+150]`, the mapping is monotone non-decreasing in the raw
value when not inverted and monotone non-increasing when inverted, and
every raw value strictly inside the dead band maps exactly to
`max_pos / 2` (C truncating division). -/
theorem map_adc_deadzone_monotone (max_pos : Int) (hmp : 0 ≤ max_pos) :
    (∀ r1 r2 : Nat, r1 ≤ r2 → r2 ≤ 4095 →
      (r1 ≤ 1897 ∨ 2199 ≤ r1) → (r2 ≤ 1897 ∨ 2199 ≤ r2) →
      Joystick.map_adc_with_deadzone r1 max_pos false ≤
        Joystick.map_adc_with_deadzone r2 max_pos false
      ∧ Joystick.map_adc_with_deadzone r2 max_pos true ≤
        Joystick.map_adc_with_deadzone r1 max_pos true)
    ∧ (∀ r : Nat, |(r : Int) - 2048| < 150 → ∀ invert,
        Joystick.map_adc_with_deadzone r max_pos invert = max_pos.tdiv 2) := by
  constructor
  · intro r1 r2 h12 hmax ho1 ho2
    have h1 := Joystick.map_mono_false max_pos hmp r1 r2 h12 hmax ho1 ho2
    refine ⟨h1, ?_⟩
    rw [Joystick.map_invert_eq r1 max_pos ho1, Joystick.map_invert_eq r2 max_pos ho2]
    omega
  · intro r h invert
    exact Joystick.map_center r max_pos invert h

/-- Witness for C5 at `max_pos = 88` with concrete raw values on both
sides of the band and one inside it. -/
theorem map_adc_deadzone_monotone_witness :
    (Joystick.map_adc_with_deadzone 1000 88 false ≤
        Joystick.map_adc_with_deadzone 2500 88 false
      ∧ Joystick.map_adc_with_deadzone 2500 88 true ≤
        Joystick.map_adc_with_deadzone 1000 88 true)
    ∧ Joystick.map_adc_with_deadzone 2100 88 true = Int.tdiv 88 2 :=
  ⟨(map_adc_deadzone_monotone 88 (by decide)).1 1000 2500 (by decide) (by decide)
      (Or.inl (by decide)) (Or.inr (by decide)),
    (map_adc_deadzone_monotone 88 (by decide)).2 2100 (by decide) true⟩

/-- C6 counterexample: at raw value `2048 - 151 = 1897` (just past the
negative dead-zone edge) the mapping yields `44`, not `0`: the scaled
offset `(-1) * 44 / 1898` truncates toward zero, so the result stays at
the center value. -/
theorem map_adc_scenario_counterexample :
    Joystick.map_adc_with_deadzone 1897 88 false = 44
    ∧ ¬ Joystick.map_adc_with_deadzone 1897 88 false = 0 := by
  decide

/-- C6 (amended): `map(2048, 88, false) = 44`; `map(2048-151, 88, false)`
equals `44` (not `0`: truncating division keeps the first step outside
the dead zone at the center value); and `map(2048+151, 88, true)` equals
`88 - map(2048+151, 88, false)`. -/
theorem map_adc_scenario_amended :
    Joystick.map_adc_with_deadzone 2048 88 false = 44
    ∧ Joystick.map_adc_with_deadzone 1897 88 false = 44
    ∧ Joystick.map_adc_with_deadzone 2199 88 true =
        88 - Joystick.map_adc_with_deadzone 2199 88 false := by
  decide

/-! ## Theorems about the button debounce handler -/

namespace Buttons

/-- Helper: the wrapped `uint32_t` subtraction agrees with natural
subtraction when the time base is monotone and below `2^32`. -/
theorem usub32_of_le {a b : Nat} (h : b ≤ a) (ha : a < 2 ^ 32) :
    usub32 a b = a - b := by
  unfold usub32
  omega

/-- Helper: an accepted rising edge on button 1 (debounce window passed)
stores the timestamp and toggles both indicator and LED GPIO. -/
theorem btn1_step_toggle (s : MainState) (ev now : Nat)
    (hev : ev &&& GPIO_IRQ_EDGE_RISE ≠ 0)
    (hb : s.btn1_last_time ≤ now) (hnow : now < 2 ^ 32)
    (h : BTN_DEBOUNCE_MS < now - s.btn1_last_time) :
    on_button_interrupt GPIO_BUTTON_1 ev now s =
      { s with btn1_last_time := now, led1_on := !s.led1_on, gpio_led1 := !s.gpio_led1 } := by
  unfold on_button_interrupt
  rw [if_neg hev, if_pos rfl, usub32_of_le hb hnow, if_pos h]

/-- Helper: a rising edge on button 1 inside the debounce window is
ignored completely. -/
theorem btn1_step_skip (s : MainState) (ev now : Nat)
    (hev : ev &&& GPIO_IRQ_EDGE_RISE ≠ 0)
    (hb : s.btn1_last_time ≤ now) (hnow : now < 2 ^ 32)
    (h : now - s.btn1_last_time ≤ BTN_DEBOUNCE_MS) :
    on_button_interrupt GPIO_BUTTON_1 ev now s = s := by
  unfold on_button_interrupt
  rw [if_neg hev, if_pos rfl, usub32_of_le hb hnow, if_neg (by omega)]

/-- Helper: an accepted rising edge on button 2. -/
theorem btn2_step_toggle (s : MainState) (ev now : Nat)
    (hev : ev &&& GPIO_IRQ_EDGE_RISE ≠ 0)
    (hb : s.btn2_last_time ≤ now) (hnow : now < 2 ^ 32)
    (h : BTN_DEBOUNCE_MS < now - s.btn2_last_time) :
    on_button_interrupt GPIO_BUTTON_2 ev now s =
      { s with btn2_last_time := now, led2_on := !s.led2_on, gpio_led2 := !s.gpio_led2 } := by
  unfold on_button_interrupt
  rw [if_neg hev, if_neg (by decide), if_pos rfl, usub32_of_le hb hnow, if_pos h]

/-- Helper: a rising edge on button 2 inside the debounce window is
ignored. -/
theorem btn2_step_skip (s : MainState) (ev now : Nat)
    (hev : ev &&& GPIO_IRQ_EDGE_RISE ≠ 0)
    (hb : s.btn2_last_time ≤ now) (hnow : now < 2 ^ 32)
    (h : now - s.btn2_last_time ≤ BTN_DEBOUNCE_MS) :
    on_button_interrupt GPIO_BUTTON_2 ev now s = s := by
  unfold on_button_interrupt
  rw [if_neg hev, if_neg (by decide), if_pos rfl, usub32_of_le hb hnow, if_neg (by omega)]

end Buttons

/-- C7 counterexample: with the last accepted edge at 100 ms, a rising
edge at 150 ms — exactly 50 ms later, so "at least 50 ms have elapsed" —
does NOT toggle: the code requires strictly more than 50 ms
(`now - last > 50`). -/
theorem button_debounce_at_50ms_counterexample :
    150 - Buttons.btnState0.btn1_last_time = 50
    ∧ Buttons.on_button_interrupt Buttons.GPIO_BUTTON_1 Buttons.GPIO_IRQ_EDGE_RISE 150
        Buttons.btnState0 = Buttons.btnState0 := by
  decide

/-- C7 (amended): per-button debounce with a strict window. A non-rising
event never changes state; a rising edge on a button toggles its
indicator and LED GPIO if and only if strictly more than 50 ms have
elapsed since that button's last accepted edge (edges exactly 50 ms apart
are still ignored); two rising edges within the window after an accepted
one produce exactly one toggle, and edges strictly more than 50 ms apart
each produce a toggle. -/
theorem button_debounce_strict (s : Buttons.MainState) (events now t1 t2 : Nat)
    (hb1 : s.btn1_last_time ≤ now) (hb2 : s.btn2_last_time ≤ now) (hnow : now < 2 ^ 32)
    (ht0 : s.btn1_last_time ≤ t1) (ht12 : t1 ≤ t2) (ht2 : t2 < 2 ^ 32) :
    (events &&& Buttons.GPIO_IRQ_EDGE_RISE = 0 →
      ∀ pin, Buttons.on_button_interrupt pin events now s = s)
    ∧ (events &&& Buttons.GPIO_IRQ_EDGE_RISE ≠ 0 →
        Buttons.BTN_DEBOUNCE_MS < now - s.btn1_last_time →
        Buttons.on_button_interrupt Buttons.GPIO_BUTTON_1 events now s =
          { s with btn1_last_time := now, led1_on := !s.led1_on, gpio_led1 := !s.gpio_led1 })
    ∧ (events &&& Buttons.GPIO_IRQ_EDGE_RISE ≠ 0 →
        now - s.btn1_last_time ≤ Buttons.BTN_DEBOUNCE_MS →
        Buttons.on_button_interrupt Buttons.GPIO_BUTTON_1 events now s = s)
    ∧ (events &&& Buttons.GPIO_IRQ_EDGE_RISE ≠ 0 →
        Buttons.BTN_DEBOUNCE_MS < now - s.btn2_last_time →
        Buttons.on_button_interrupt Buttons.GPIO_BUTTON_2 events now s =
          { s with btn2_last_time := now, led2_on := !s.led2_on, gpio_led2 := !s.gpio_led2 })
    ∧ (events &&& Buttons.GPIO_IRQ_EDGE_RISE ≠ 0 →
        now - s.btn2_last_time ≤ Buttons.BTN_DEBOUNCE_MS →
        Buttons.on_button_interrupt Buttons.GPIO_BUTTON_2 events now s = s)
    ∧ (Buttons.BTN_DEBOUNCE_MS < t1 - s.btn1_last_time →
        t2 - t1 ≤ Buttons.BTN_DEBOUNCE_MS →
        (Buttons.on_button_interrupt Buttons.GPIO_BUTTON_1
            Buttons.GPIO_IRQ_EDGE_RISE t1 s).led1_on = !s.led1_on
        ∧ Buttons.on_button_interrupt Buttons.GPIO_BUTTON_1 Buttons.GPIO_IRQ_EDGE_RISE t2
            (Buttons.on_button_interrupt Buttons.GPIO_BUTTON_1
              Buttons.GPIO_IRQ_EDGE_RISE t1 s) =
          Buttons.on_button_interrupt Buttons.GPIO_BUTTON_1
            Buttons.GPIO_IRQ_EDGE_RISE t1 s)
    ∧ (Buttons.BTN_DEBOUNCE_MS < t1 - s.btn1_last_time →
        Buttons.BTN_DEBOUNCE_MS < t2 - t1 →
        (Buttons.on_button_interrupt Buttons.GPIO_BUTTON_1
            Buttons.GPIO_IRQ_EDGE_RISE t1 s).led1_on = !s.led1_on
        ∧ (Buttons.on_button_interrupt Buttons.GPIO_BUTTON_1 Buttons.GPIO_IRQ_EDGE_RISE t2
            (Buttons.on_button_interrupt Buttons.GPIO_BUTTON_1
              Buttons.GPIO_IRQ_EDGE_RISE t1 s)).led1_on = s.led1_on) := by
  have ht1lt : t1 < 2 ^ 32 := by omega
  refine ⟨?_, ?_, ?_, ?_, ?_, ?_, ?_⟩
  · intro h pin
    unfold Buttons.on_button_interrupt
    rw [if_pos h]
  · intro hev h
    exact Buttons.btn1_step_toggle s events now hev hb1 hnow h
  · intro hev h
    exact Buttons.btn1_step_skip s events now hev hb1 hnow h
  · intro hev h
    exact Buttons.btn2_step_toggle s events now hev hb2 hnow h
  · intro hev h
    exact Buttons.btn2_step_skip s events now hev hb2 hnow h
  · intro h1 h2
    rw [Buttons.btn1_step_toggle s _ t1 (by decide) ht0 ht1lt h1]
    refine ⟨rfl, ?_⟩
    exact Buttons.btn1_step_skip _ _ t2 (by decide) ht12 ht2 (by simpa using h2)
  · intro h1 h2
    rw [Buttons.btn1_step_toggle s _ t1 (by decide) ht0 ht1lt h1]
    refine ⟨rfl, ?_⟩
    rw [Buttons.btn1_step_toggle _ _ t2 (by decide) ht12 ht2 h2]
    simp

/-- Witness for the amended C7: last accepted edge at 100 ms, a rising
edge at 160 ms toggles, a second at 200 ms (40 ms later) is ignored. -/
theorem button_debounce_strict_witness :
    (Buttons.on_button_interrupt Buttons.GPIO_BUTTON_1 Buttons.GPIO_IRQ_EDGE_RISE 160
        Buttons.btnState0).led1_on = !Buttons.btnState0.led1_on
    ∧ Buttons.on_button_interrupt Buttons.GPIO_BUTTON_1 Buttons.GPIO_IRQ_EDGE_RISE 200
        (Buttons.on_button_interrupt Buttons.GPIO_BUTTON_1 Buttons.GPIO_IRQ_EDGE_RISE 160
          Buttons.btnState0) =
      Buttons.on_button_interrupt Buttons.GPIO_BUTTON_1 Buttons.GPIO_IRQ_EDGE_RISE 160
        Buttons.btnState0 :=
  (button_debounce_strict Buttons.btnState0 8 160 160 200 (by decide) (by decide)
    (by decide) (by decide) (by decide) (by decide)).2.2.2.2.2.1
    (by decide) (by decide)

/-! ## Theorems about the display drivers -/

namespace LvPortDisp

/-- Helper: a list of display-bus actions contains no completion signal. -/
theorem countP_ready_comp_bus (l : List St7796.BusAction) :
    l.countP (isFlushReady ∘ FlushEvent.bus) = 0 := by
  induction l with
  | nil => rfl
  | cons a l ih => simp_all [isFlushReady, Function.comp, List.countP_cons]

end LvPortDisp

namespace St7796

/-- Helper: the byte serialization of a pixel list has twice its length. -/
theorem flatMap_pixelToBytes_length (l : List Nat) :
    (l.flatMap pixelToBytes).length = 2 * l.length := by
  induction l with
  | nil => rfl
  | cons a l ih =>
      simp [pixelToBytes, ih]
      omega

end St7796

/-- C8: every `disp_flush` call signals flush-complete to LVGL exactly
once on every execution path, and when the output-enable flag is false
the trace is exactly the completion signal — no set-window and no pixel
write precede it. -/
theorem disp_flush_ready_exactly_once (enabled : Bool) (x1 y1 x2 y2 : Nat)
    (color : Option (List Nat)) :
    LvPortDisp.flushReadyCount (LvPortDisp.disp_flush enabled x1 y1 x2 y2 color) = 1
    ∧ (enabled = false →
        LvPortDisp.disp_flush enabled x1 y1 x2 y2 color =
          [LvPortDisp.FlushEvent.flushReady]) := by
  constructor
  · cases enabled
    · simp [LvPortDisp.disp_flush, LvPortDisp.flushReadyCount, LvPortDisp.isFlushReady]
    · simp [LvPortDisp.disp_flush, LvPortDisp.flushReadyCount, List.countP_append,
        List.countP_map, LvPortDisp.countP_ready_comp_bus, LvPortDisp.isFlushReady]
  · intro h
    subst h
    simp [LvPortDisp.disp_flush]

/-- Witness for C8: a disabled flush signals completion only; an enabled
flush still signals exactly once. -/
theorem disp_flush_ready_exactly_once_witness :
    LvPortDisp.disp_flush false 0 0 9 9 (some [1, 2]) = [LvPortDisp.FlushEvent.flushReady]
    ∧ LvPortDisp.flushReadyCount
        (LvPortDisp.disp_flush true 0 0 9 9 (some [1, 2])) = 1 :=
  ⟨(disp_flush_ready_exactly_once false 0 0 9 9 (some [1, 2])).2 rfl,
    (disp_flush_ready_exactly_once true 0 0 9 9 (some [1, 2])).1⟩

/-- C9: `st7796_write_color` is a no-op (no bus transaction, no
chip-select or data-select change) when the pixel count is 0 or the
buffer is null; otherwise it asserts chip-select, selects data mode,
transmits the first `len` pixels' bytes — exactly `len * 2` bytes — as a
single SPI burst, and releases chip-select. -/
theorem st7796_write_color_spec (color : Option (List Nat)) (len : Nat) :
    ((len = 0 ∨ color = none) → St7796.st7796_write_color color len = [])
    ∧ (∀ pixels, color = some pixels → len ≠ 0 → len ≤ pixels.length →
        St7796.st7796_write_color color len =
          [St7796.BusAction.csLow, St7796.BusAction.dcData,
            St7796.BusAction.spiWrite ((pixels.take len).flatMap St7796.pixelToBytes),
            St7796.BusAction.csHigh]
        ∧ ((pixels.take len).flatMap St7796.pixelToBytes).length = 2 * len) := by
  constructor
  · rintro (h | h)
    · cases color <;> simp [St7796.st7796_write_color, h]
    · subst h
      rfl
  · rintro pixels rfl hlen htake
    refine ⟨by simp [St7796.st7796_write_color, hlen], ?_⟩
    rw [St7796.flatMap_pixelToBytes_length, List.length_take]
    omega

/-- Witness for C9: two pixels `0x1234` and `0xABCD` produce one burst of
four bytes; a zero count is a no-op. -/
theorem st7796_write_color_spec_witness :
    St7796.st7796_write_color (some [0x1234, 0xABCD]) 0 = []
    ∧ (St7796.st7796_write_color (some [0x1234, 0xABCD]) 2 =
        [St7796.BusAction.csLow, St7796.BusAction.dcData,
          St7796.BusAction.spiWrite
            (([0x1234, 0xABCD].take 2).flatMap St7796.pixelToBytes),
          St7796.BusAction.csHigh]
      ∧ (([0x1234, 0xABCD].take 2).flatMap St7796.pixelToBytes).length = 2 * 2) :=
  ⟨(st7796_write_color_spec (some [0x1234, 0xABCD]) 0).1 (Or.inl rfl),
    (st7796_write_color_spec (some [0x1234, 0xABCD]) 2).2 [0x1234, 0xABCD] rfl
      (by decide) (by decide)⟩
